import Mathlib

/-!
Verification of the KeenAI-Quant core decision pipeline.

The Python sources are embedded shallowly: prices, balances and indicator
values become rationals (reals only where the source takes a square root),
mutable objects become explicit state passing, fallible constructors return
`Except`, and `None`-returning indicator functions return `Option`.
Each definition mirrors one function of the repository, named after it.
-/

namespace KeenAIQuant

/-! ## Data model (`backend/models/trading_models.py`) -/

/-- `OrderDirection` enum from `trading_models.py`. -/
inductive OrderDirection
  | BUY
  | SELL
  | HOLD
deriving DecidableEq, Repr

/-- `Candle` dataclass. `open` is a Lean keyword, hence `open_`.
Timestamps are modelled as natural numbers (seconds). -/
structure Candle where
  pair : String
  timestamp : Nat
  timeframe : String
  open_ : ℚ
  high : ℚ
  low : ℚ
  close : ℚ
  volume : ℚ
deriving DecidableEq, Repr

/-- `TradingSignal` dataclass (field part; the `__post_init__` validation is
`mkTradingSignal` below, the only constructor the pipeline uses). -/
structure TradingSignal where
  pair : String
  direction : OrderDirection
  confidence : ℚ
  entry_price : ℚ
  stop_loss : ℚ
  take_profit : ℚ
  size : ℚ
  reasoning : String
  source : String
  timestamp : Nat
deriving DecidableEq, Repr

/-- `TradingSignal.__post_init__`: constructing a signal validates
`0 <= confidence <= 1` (checked first) and `size > 0`; a violation raises
`ValueError`, modelled as `Except.error`. -/
def mkTradingSignal (pair : String) (direction : OrderDirection)
    (confidence entry_price stop_loss take_profit size : ℚ)
    (reasoning source : String) (timestamp : Nat) :
    Except String TradingSignal :=
  if ¬(0 ≤ confidence ∧ confidence ≤ 1) then
    .error "Confidence must be between 0 and 1"
  else if size ≤ 0 then
    .error "Size must be positive"
  else
    .ok ⟨pair, direction, confidence, entry_price, stop_loss, take_profit,
         size, reasoning, source, timestamp⟩

/-- `StrategyResult` dataclass from `Strategy_Framework/base_strategy.py`
(the `metadata` dict is omitted; no embedded function reads it). -/
structure StrategyResult where
  signal : Option TradingSignal
  confidence : ℚ
  reasoning : String
  timestamp : Nat
deriving DecidableEq, Repr

/-! ## Strategy orchestrator (`Strategy_Framework/strategy_orchestrator.py`) -/

/-- The list `[(r.signal, r.confidence, r.reasoning) for r in results if
r.signal is not None]` built at the top of `resolve_conflicts`
(the unused `reasoning` component is dropped). -/
def nonNullSignals (results : List StrategyResult) : List (TradingSignal × ℚ) :=
  results.filterMap fun r => r.signal.map fun s => (s, r.confidence)

/-- Python's `max(first :: rest, key=lambda x: x[1])`: scan left, replace the
current best only on a strictly greater key, so the first maximum wins. -/
def maxByConf (best : TradingSignal × ℚ) :
    List (TradingSignal × ℚ) → TradingSignal × ℚ
  | [] => best
  | p :: rest => maxByConf (if best.2 < p.2 then p else best) rest

/-- The body of `StrategyOrchestrator.resolve_conflicts` after
`signals_with_results` has been computed: zero signals → `None`; one
signal → that signal; both BUY and SELL present → `None`; otherwise the
signal of highest confidence among the (all same-direction) signals. -/
def resolveSignals : List (TradingSignal × ℚ) → Option TradingSignal
  | [] => none
  | [p] => some p.1
  | p :: q :: rest =>
    let sigs := p :: q :: rest
    let buys := sigs.filter fun x => decide (x.1.direction = .BUY)
    let sells := sigs.filter fun x => decide (x.1.direction = .SELL)
    if buys ≠ [] ∧ sells ≠ [] then none
    else
      match buys with
      | b :: bs => some (maxByConf b bs).1
      | [] =>
        match sells with
        | s :: ss => some (maxByConf s ss).1
        | [] => none

/-- `StrategyOrchestrator.resolve_conflicts`. -/
def resolveConflicts (results : List StrategyResult) : Option TradingSignal :=
  resolveSignals (nonNullSignals results)

/-! ### Helper lemmas about `maxByConf` -/

theorem maxByConf_mem (best : TradingSignal × ℚ) (l : List (TradingSignal × ℚ)) :
    maxByConf best l ∈ best :: l := by
  induction l generalizing best with
  | nil => simp [maxByConf]
  | cons p rest ih =>
    simp only [maxByConf]
    by_cases hc : best.2 < p.2
    · rw [if_pos hc]
      rcases List.mem_cons.mp (ih p) with h | h
      · exact List.mem_cons.mpr (Or.inr (List.mem_cons.mpr (Or.inl h)))
      · exact List.mem_cons.mpr (Or.inr (List.mem_cons.mpr (Or.inr h)))
    · rw [if_neg hc]
      rcases List.mem_cons.mp (ih best) with h | h
      · exact List.mem_cons.mpr (Or.inl h)
      · exact List.mem_cons.mpr (Or.inr (List.mem_cons.mpr (Or.inr h)))

theorem maxByConf_ge (best : TradingSignal × ℚ) (l : List (TradingSignal × ℚ)) :
    ∀ x ∈ best :: l, x.2 ≤ (maxByConf best l).2 := by
  induction l generalizing best with
  | nil => simp [maxByConf]
  | cons p rest ih =>
    intro x hx
    simp only [maxByConf]
    rcases List.mem_cons.mp hx with h | hx2
    · subst h
      by_cases hc : x.2 < p.2
      · rw [if_pos hc]
        exact le_trans (le_of_lt hc) (ih p p (List.mem_cons_self p rest))
      · rw [if_neg hc]
        exact ih x x (List.mem_cons_self x rest)
    · rcases List.mem_cons.mp hx2 with h | h
      · subst h
        by_cases hc : best.2 < x.2
        · rw [if_pos hc]
          exact ih x x (List.mem_cons_self x rest)
        · rw [if_neg hc]
          exact le_trans (le_of_not_lt hc) (ih best best (List.mem_cons_self best rest))
      · by_cases hc : best.2 < p.2
        · rw [if_pos hc]
          exact ih p x (List.mem_cons.mpr (Or.inr h))
        · rw [if_neg hc]
          exact ih best x (List.mem_cons.mpr (Or.inr h))

/-- A BUY signal with confidence 0.7, as in the spec's orchestrator example. -/
def buySignal : TradingSignal :=
  { pair := "EUR/USD", direction := .BUY, confidence := 7/10,
    entry_price := 1, stop_loss := 1, take_profit := 1,
    size := 1, reasoning := "", source := "Trend_Following_EMA_ADX",
    timestamp := 0 }

/-- A SELL signal with confidence 0.9, as in the spec's orchestrator example. -/
def sellSignal : TradingSignal :=
  { pair := "EUR/USD", direction := .SELL, confidence := 9/10,
    entry_price := 1, stop_loss := 1, take_profit := 1,
    size := 1, reasoning := "", source := "Breakout_Donchian",
    timestamp := 0 }

/-- A strategy result carrying `buySignal`. -/
def buyResult : StrategyResult :=
  { signal := some buySignal, confidence := 7/10, reasoning := "", timestamp := 0 }

/-- A strategy result carrying `sellSignal`. -/
def sellResult : StrategyResult :=
  { signal := some sellSignal, confidence := 9/10, reasoning := "", timestamp := 0 }

/-- C1: the orchestrator's conflict resolution over the non-null candidate
signals of one decision cycle returns: no trade for zero signals; the signal
itself for exactly one signal; no trade when at least one BUY and at least
one SELL are present; and, when every signal shares one (BUY or SELL)
direction, some single signal of highest confidence from the set — prices
and targets are never averaged. -/
theorem claimC1 (results : List StrategyResult) :
    (nonNullSignals results = [] → resolveConflicts results = none) ∧
    (∀ p, nonNullSignals results = [p] → resolveConflicts results = some p.1) ∧
    ((∃ p ∈ nonNullSignals results, p.1.direction = .BUY) →
     (∃ p ∈ nonNullSignals results, p.1.direction = .SELL) →
     resolveConflicts results = none) ∧
    (∀ d, (d = OrderDirection.BUY ∨ d = OrderDirection.SELL) →
      2 ≤ (nonNullSignals results).length →
      (∀ p ∈ nonNullSignals results, p.1.direction = d) →
      ∃ p ∈ nonNullSignals results, resolveConflicts results = some p.1 ∧
        ∀ q ∈ nonNullSignals results, q.2 ≤ p.2) := by
  have hrw : resolveConflicts results = resolveSignals (nonNullSignals results) := rfl
  refine ⟨?_, ?_, ?_, ?_⟩
  · intro h
    rw [hrw, h]
    rfl
  · intro p h
    rw [hrw, h]
    rfl
  · rintro ⟨pb, hpbmem, hpbdir⟩ ⟨ps, hpsmem, hpsdir⟩
    rcases hnn : nonNullSignals results with _ | ⟨p0, _ | ⟨q0, rest⟩⟩
    · rw [hnn] at hpbmem
      exact absurd hpbmem (List.not_mem_nil pb)
    · rw [hnn] at hpbmem hpsmem
      have hb := List.mem_singleton.mp hpbmem
      have hs := List.mem_singleton.mp hpsmem
      rw [hb] at hpbdir
      rw [hs] at hpsdir
      rw [hpbdir] at hpsdir
      exact absurd hpsdir (by simp)
    · rw [hrw, hnn]
      rw [hnn] at hpbmem hpsmem
      simp only [resolveSignals]
      have hbne : (p0 :: q0 :: rest).filter
          (fun x => decide (x.1.direction = OrderDirection.BUY)) ≠ [] :=
        List.ne_nil_of_mem (List.mem_filter.mpr ⟨hpbmem, by simp [hpbdir]⟩)
      have hsne : (p0 :: q0 :: rest).filter
          (fun x => decide (x.1.direction = OrderDirection.SELL)) ≠ [] :=
        List.ne_nil_of_mem (List.mem_filter.mpr ⟨hpsmem, by simp [hpsdir]⟩)
      rw [if_pos ⟨hbne, hsne⟩]
  · intro d hd hlen hall
    rcases hnn : nonNullSignals results with _ | ⟨p0, _ | ⟨q0, rest⟩⟩
    · rw [hnn] at hlen
      simp at hlen
    · rw [hnn] at hlen
      simp at hlen
    · rw [hrw, hnn]
      rw [hnn] at hall
      simp only [resolveSignals]
      rcases hd with hd | hd
      all_goals subst hd
      · have hsells : (p0 :: q0 :: rest).filter
            (fun x => decide (x.1.direction = OrderDirection.SELL)) = [] := by
          rw [List.filter_eq_nil_iff]
          intro a ha
          simp [hall a ha]
        have hbuys : (p0 :: q0 :: rest).filter
            (fun x => decide (x.1.direction = OrderDirection.BUY)) = p0 :: q0 :: rest := by
          rw [List.filter_eq_self]
          intro a ha
          simp [hall a ha]
        rw [if_neg (by simp [hsells]), hbuys]
        exact ⟨maxByConf p0 (q0 :: rest), maxByConf_mem p0 (q0 :: rest), rfl,
               maxByConf_ge p0 (q0 :: rest)⟩
      · have hbuys : (p0 :: q0 :: rest).filter
            (fun x => decide (x.1.direction = OrderDirection.BUY)) = [] := by
          rw [List.filter_eq_nil_iff]
          intro a ha
          simp [hall a ha]
        have hsells : (p0 :: q0 :: rest).filter
            (fun x => decide (x.1.direction = OrderDirection.SELL)) = p0 :: q0 :: rest := by
          rw [List.filter_eq_self]
          intro a ha
          simp [hall a ha]
        rw [if_neg (by simp [hbuys]), hbuys, hsells]
        exact ⟨maxByConf p0 (q0 :: rest), maxByConf_mem p0 (q0 :: rest), rfl,
               maxByConf_ge p0 (q0 :: rest)⟩

/-- C1 witness: the spec's concrete example — one BUY signal of confidence
0.7 against one SELL signal of confidence 0.9 resolves to no trade. -/
theorem claimC1_witness : resolveConflicts [buyResult, sellResult] = none :=
  (claimC1 [buyResult, sellResult]).2.2.1
    ⟨(buySignal, 7/10), by simp [nonNullSignals, buyResult, sellResult], rfl⟩
    ⟨(sellSignal, 9/10), by simp [nonNullSignals, buyResult, sellResult], rfl⟩

/-! ## Strategy signal construction sites (C10)

`trend_following_strategy.py` lines 121-132 and `breakout_strategy.py`
lines 161-172 construct `TradingSignal(..., size=0.0, ...)` — the size is a
placeholder "to be calculated by risk management".  The reasoning strings
are f-strings in the source; their text does not affect validation. -/

/-- The `TradingSignal(...)` call in the bullish-crossover branch of
`TrendFollowingStrategy.analyze`: BUY at the current price, stop at
`price - 2·ATR`, target at `price + 3·ATR`, placeholder `size = 0.0`. -/
def trendFollowingBuySignal (pair : String) (confidence current_price atr : ℚ)
    (ts : Nat) : Except String TradingSignal :=
  mkTradingSignal pair .BUY confidence current_price
    (current_price - 2 * atr) (current_price + 3 * atr) 0
    "Bullish EMA crossover with strong ADX" "Trend_Following_EMA_ADX" ts

/-- The `TradingSignal(...)` call in the bullish-breakout branch of
`BreakoutStrategy.analyze`: BUY at the current price, stop at the lower
channel, target at `price + 2·(price − stop)`, placeholder `size = 0.0`. -/
def breakoutBuySignal (pair name : String) (confidence current_price lower_channel : ℚ)
    (ts : Nat) : Except String TradingSignal :=
  mkTradingSignal pair .BUY confidence current_price lower_channel
    (current_price + 2 * (current_price - lower_channel)) 0
    "Bullish breakout above N-period high" name ts

/-- C10: every `TradingSignal` construction with `size ≤ 0` or confidence
outside `[0, 1]` fails with a validation error; every successfully
constructed signal has positive size and confidence in `[0, 1]`; and in
particular the placeholder-size-0.0 constructions in the trend-following
and breakout strategies always fail, so no signal with non-positive size
ever comes into existence. -/
theorem claimC10 :
    (∀ pair direction confidence entry stop tp size reasoning source ts,
      size ≤ 0 ∨ confidence < 0 ∨ 1 < confidence →
      ∃ e, mkTradingSignal pair direction confidence entry stop tp size
        reasoning source ts = .error e) ∧
    (∀ pair direction confidence entry stop tp size reasoning source ts s,
      mkTradingSignal pair direction confidence entry stop tp size
        reasoning source ts = .ok s →
      0 < s.size ∧ 0 ≤ s.confidence ∧ s.confidence ≤ 1 ∧
      s.size = size ∧ s.confidence = confidence) ∧
    (∀ pair confidence price atr ts,
      ∃ e, trendFollowingBuySignal pair confidence price atr ts = .error e) ∧
    (∀ pair name confidence price ch ts,
      ∃ e, breakoutBuySignal pair name confidence price ch ts = .error e) := by
  have herr : ∀ (pair : String) (direction : OrderDirection)
      (confidence entry stop tp size : ℚ) (reasoning source : String) (ts : Nat),
      size ≤ 0 ∨ confidence < 0 ∨ 1 < confidence →
      ∃ e, mkTradingSignal pair direction confidence entry stop tp size
        reasoning source ts = .error e := by
    intro pair direction confidence entry stop tp size reasoning source ts h
    unfold mkTradingSignal
    by_cases hc : 0 ≤ confidence ∧ confidence ≤ 1
    · rw [if_neg (not_not_intro hc)]
      have hsz : size ≤ 0 := by
        rcases h with h | h | h
        · exact h
        · exact absurd hc.1 (not_le.mpr h)
        · exact absurd hc.2 (not_le.mpr h)
      rw [if_pos hsz]
      exact ⟨_, rfl⟩
    · rw [if_pos hc]
      exact ⟨_, rfl⟩
  refine ⟨herr, ?_, ?_, ?_⟩
  · intro pair direction confidence entry stop tp size reasoning source ts s hok
    unfold mkTradingSignal at hok
    by_cases hc : 0 ≤ confidence ∧ confidence ≤ 1
    · rw [if_neg (not_not_intro hc)] at hok
      by_cases hsz : size ≤ 0
      · rw [if_pos hsz] at hok
        exact absurd hok (by simp)
      · rw [if_neg hsz] at hok
        have hs : s = ⟨pair, direction, confidence, entry, stop, tp, size,
            reasoning, source, ts⟩ := by
          cases hok
          rfl
        subst hs
        exact ⟨lt_of_not_le hsz, hc.1, hc.2, rfl, rfl⟩
    · rw [if_pos hc] at hok
      exact absurd hok (by simp)
  · intro pair confidence price atr ts
    exact herr pair .BUY confidence price (price - 2 * atr) (price + 3 * atr) 0
      "Bullish EMA crossover with strong ADX" "Trend_Following_EMA_ADX" ts
      (Or.inl le_rfl)
  · intro pair name confidence price ch ts
    exact herr pair .BUY confidence price ch (price + 2 * (price - ch)) 0
      "Bullish breakout above N-period high" name ts (Or.inl le_rfl)

/-- C10 witness: concrete instances — a size-0 construction fails, a valid
construction succeeds with positive size, and the trend-following
placeholder construction fails. -/
theorem claimC10_witness :
    (∃ e, mkTradingSignal "EUR/USD" .BUY (1/2) 1 1 1 0 "r" "s" 0 = .error e) ∧
    (∃ e, trendFollowingBuySignal "EUR/USD" (7/10) 100 2 0 = .error e) ∧
    0 < (({ pair := "EUR/USD", direction := .BUY, confidence := 1/2,
            entry_price := 100, stop_loss := 99, take_profit := 103, size := 1,
            reasoning := "r", source := "s", timestamp := 0 } : TradingSignal)).size :=
  ⟨claimC10.1 "EUR/USD" .BUY (1/2) 1 1 1 0 "r" "s" 0 (Or.inl le_rfl),
   claimC10.2.2.1 "EUR/USD" (7/10) 100 2 0,
   (claimC10.2.1 "EUR/USD" .BUY (1/2) 100 99 103 1 "r" "s" 0 _
     (by simp [mkTradingSignal]; norm_num)).1⟩

/-! ## Circuit breaker (`Risk_Management/circuit_breakers.py`) -/

/-- `Position` dataclass from `trading_models.py`. -/
structure Position where
  position_id : String
  pair : String
  direction : OrderDirection
  size : ℚ
  entry_price : ℚ
  current_price : ℚ
  stop_loss : ℚ
  take_profit : ℚ
  unrealized_pnl : ℚ
  opened_at : Nat
deriving DecidableEq, Repr

/-- `Account` dataclass from `trading_models.py`. -/
structure Account where
  balance : ℚ
  equity : ℚ
  margin_used : ℚ
  margin_available : ℚ
  unrealized_pnl : ℚ
  realized_pnl_today : ℚ
  positions : List Position
deriving DecidableEq, Repr

/-- `CircuitBreakerStatus` enum. -/
inductive CircuitBreakerStatus
  | ACTIVE
  | TRIPPED
  | MANUAL_OVERRIDE
deriving DecidableEq, Repr

/-- `CircuitBreakerEvent` dataclass. -/
structure CircuitBreakerEvent where
  timestamp : Nat
  reason : String
  trigger_value : ℚ
  threshold_value : ℚ
deriving DecidableEq, Repr

/-- The mutable fields of the `CircuitBreaker` class together with its
configured thresholds (`max_daily_loss`, `max_drawdown`,
`max_consecutive_losses`). Dates are modelled as day numbers. -/
structure CircuitBreaker where
  max_daily_loss : ℚ
  max_drawdown : ℚ
  max_consecutive_losses : Nat
  status : CircuitBreakerStatus
  starting_balance_today : Option ℚ
  peak_equity : Option ℚ
  consecutive_losses : Nat
  last_reset_date : Option Nat
  trip_history : List CircuitBreakerEvent
deriving DecidableEq, Repr

/-- `CircuitBreaker._trigger_breaker`: set status to TRIPPED and append an
event to the trip history (`now` stands for `datetime.now()`). -/
def triggerBreaker (cb : CircuitBreaker) (reason : String)
    (trigger_value threshold_value : ℚ) (now : Nat) : CircuitBreaker :=
  { cb with
    status := .TRIPPED,
    trip_history := cb.trip_history ++
      [⟨now, reason, trigger_value, threshold_value⟩] }

/-- `CircuitBreaker.check_daily_loss`: trips (and reports `False`) when the
day's realized P&L is negative and its absolute value exceeds
`max_daily_loss` as a fraction of the day's starting balance. -/
def checkDailyLoss (cb : CircuitBreaker) (current_pnl starting_balance : ℚ)
    (now : Nat) : Bool × CircuitBreaker :=
  if starting_balance ≤ 0 then (true, cb)
  else
    let loss_percentage := |current_pnl / starting_balance|
    if current_pnl < 0 ∧ cb.max_daily_loss < loss_percentage then
      (false, triggerBreaker cb "Daily loss limit exceeded"
        (loss_percentage * 100) (cb.max_daily_loss * 100) now)
    else (true, cb)

/-- `CircuitBreaker.check_drawdown`. -/
def checkDrawdown (cb : CircuitBreaker) (current_equity peak_equity : ℚ)
    (now : Nat) : Bool × CircuitBreaker :=
  if peak_equity ≤ 0 then (true, cb)
  else
    let drawdown := (peak_equity - current_equity) / peak_equity
    if cb.max_drawdown < drawdown then
      (false, triggerBreaker cb "Maximum drawdown exceeded"
        (drawdown * 100) (cb.max_drawdown * 100) now)
    else (true, cb)

/-- `CircuitBreaker.check_consecutive_losses`. -/
def checkConsecutiveLosses (cb : CircuitBreaker) (now : Nat) :
    Bool × CircuitBreaker :=
  if cb.max_consecutive_losses ≤ cb.consecutive_losses then
    (false, triggerBreaker cb "Maximum consecutive losses reached"
      (cb.consecutive_losses) (cb.max_consecutive_losses) now)
  else (true, cb)

/-- `CircuitBreaker.record_trade_result`: update the consecutive-loss
counter (increment on a loss, reset to 0 otherwise), then re-check the
consecutive-loss trip condition. -/
def recordTradeResult (cb : CircuitBreaker) (pnl : ℚ) (now : Nat) :
    CircuitBreaker :=
  let cb1 :=
    if pnl < 0 then { cb with consecutive_losses := cb.consecutive_losses + 1 }
    else { cb with consecutive_losses := 0 }
  (checkConsecutiveLosses cb1 now).2

/-- `CircuitBreaker.reset_breaker`: from TRIPPED, a manual reset restores
ACTIVE and zeroes the consecutive-loss counter; a non-manual reset is
refused; from any other status the call is a no-op reporting success. -/
def resetBreaker (cb : CircuitBreaker) (manual : Bool) :
    Bool × CircuitBreaker :=
  if cb.status = .TRIPPED then
    if manual then
      (true, { cb with status := .ACTIVE, consecutive_losses := 0 })
    else (false, cb)
  else (true, cb)

/-- `CircuitBreaker._check_daily_reset`: on a new calendar day, clear the
day's starting balance, remember the day, and zero the consecutive-loss
counter. (The source guards the counter write with `if consecutive_losses
> 0`, which is the identity when it is already 0.) -/
def checkDailyReset (cb : CircuitBreaker) (today : Nat) : CircuitBreaker :=
  if cb.last_reset_date ≠ some today then
    { cb with
      starting_balance_today := none,
      last_reset_date := some today,
      consecutive_losses := 0 }
  else cb

/-- `CircuitBreaker.enable_manual_override`. -/
def enableManualOverride (cb : CircuitBreaker) : CircuitBreaker :=
  { cb with status := .MANUAL_OVERRIDE }

/-- `CircuitBreaker.disable_manual_override`. -/
def disableManualOverride (cb : CircuitBreaker) : CircuitBreaker :=
  if cb.status = .MANUAL_OVERRIDE then { cb with status := .ACTIVE } else cb

/-- `CircuitBreaker.check_all_conditions`: short-circuit on TRIPPED (deny)
and MANUAL_OVERRIDE (allow); otherwise roll the day over if needed,
initialize the day's starting balance and the peak equity, and run the
daily-loss, drawdown and consecutive-loss checks in order, stopping at the
first failure. -/
def checkAllConditions (cb : CircuitBreaker) (account : Account)
    (today now : Nat) : Bool × CircuitBreaker :=
  if cb.status = .TRIPPED then (false, cb)
  else if cb.status = .MANUAL_OVERRIDE then (true, cb)
  else
    let cb1 := checkDailyReset cb today
    let sb := match cb1.starting_balance_today with
      | none => account.balance
      | some b => b
    let cb2 := { cb1 with starting_balance_today := some sb }
    let pk := match cb2.peak_equity with
      | none => account.equity
      | some p => if p < account.equity then account.equity else p
    let cb3 := { cb2 with peak_equity := some pk }
    match checkDailyLoss cb3 account.realized_pnl_today sb now with
    | (false, cb4) => (false, cb4)
    | (true, cb4) =>
      match checkDrawdown cb4 account.equity pk now with
      | (false, cb5) => (false, cb5)
      | (true, cb5) => checkConsecutiveLosses cb5 now

/-- The `CircuitBreaker.__init__` state with the documented default
configuration (`max_daily_loss = 5%`, `max_drawdown = 15%`, 5 consecutive
losses). -/
def initialBreaker : CircuitBreaker :=
  { max_daily_loss := 5/100, max_drawdown := 15/100,
    max_consecutive_losses := 5, status := .ACTIVE,
    starting_balance_today := none, peak_equity := none,
    consecutive_losses := 0, last_reset_date := none, trip_history := [] }

/-- C3: with `max_daily_loss = 0.05` and a day-starting balance of 10000,
a realized daily loss of 600 (6%) trips the breaker from ACTIVE to TRIPPED
while a loss of 400 (4%) leaves it ACTIVE; in general, for an ACTIVE
breaker and a positive starting balance, the daily-loss check trips
exactly when the realized daily loss as a fraction of the starting balance
exceeds `max_daily_loss`. -/
theorem claimC3 :
    ((checkDailyLoss initialBreaker (-600) 10000 0).1 = false ∧
     (checkDailyLoss initialBreaker (-600) 10000 0).2.status = .TRIPPED) ∧
    ((checkDailyLoss initialBreaker (-400) 10000 0).1 = true ∧
     (checkDailyLoss initialBreaker (-400) 10000 0).2.status = .ACTIVE) ∧
    (∀ (cb : CircuitBreaker) (pnl bal : ℚ) (now : Nat),
      0 < bal → cb.status = .ACTIVE →
      (((checkDailyLoss cb pnl bal now).2.status = .TRIPPED) ↔
        (pnl < 0 ∧ cb.max_daily_loss < -pnl / bal)) ∧
      (((checkDailyLoss cb pnl bal now).1 = false) ↔
        (pnl < 0 ∧ cb.max_daily_loss < -pnl / bal))) := by
  have h600 : ((-600 : ℚ) < 0 ∧ initialBreaker.max_daily_loss < |(-600 : ℚ) / 10000|) := by
    rw [show |(-600 : ℚ) / 10000| = 600/10000 by norm_num [abs_of_nonpos]]
    norm_num [initialBreaker]
  have h400 : ¬((-400 : ℚ) < 0 ∧ initialBreaker.max_daily_loss < |(-400 : ℚ) / 10000|) := by
    rw [show |(-400 : ℚ) / 10000| = 400/10000 by norm_num [abs_of_nonpos]]
    norm_num [initialBreaker]
  refine ⟨?_, ?_, ?_⟩
  · simp only [checkDailyLoss, if_neg (by norm_num : ¬(10000 : ℚ) ≤ 0), if_pos h600]
    simp [triggerBreaker]
  · simp only [checkDailyLoss, if_neg (by norm_num : ¬(10000 : ℚ) ≤ 0), if_neg h400]
    simp [initialBreaker]
  intro cb pnl bal now hbal hact
  have hnb : ¬ bal ≤ 0 := not_le.mpr hbal
  by_cases hcond : pnl < 0 ∧ cb.max_daily_loss < -pnl / bal
  · have habs : |pnl / bal| = -pnl / bal := by
      rw [abs_of_nonpos (div_nonpos_of_nonpos_of_nonneg (le_of_lt hcond.1) (le_of_lt hbal))]
      ring
    have hcond2 : pnl < 0 ∧ cb.max_daily_loss < |pnl / bal| := ⟨hcond.1, habs ▸ hcond.2⟩
    simp only [checkDailyLoss, if_neg hnb, if_pos hcond2]
    simp [triggerBreaker, hcond]
  · have hcond2 : ¬(pnl < 0 ∧ cb.max_daily_loss < |pnl / bal|) := by
      intro ⟨h1, h2⟩
      apply hcond
      refine ⟨h1, ?_⟩
      have habs : |pnl / bal| = -pnl / bal := by
        rw [abs_of_nonpos (div_nonpos_of_nonpos_of_nonneg (le_of_lt h1) (le_of_lt hbal))]
        ring
      exact habs ▸ h2
    simp only [checkDailyLoss, if_neg hnb, if_neg hcond2]
    simp [hact, hcond]

/-- C3 witness: the general daily-loss characterization applied at the
600-loss example. -/
theorem claimC3_witness :
    (0 : ℚ) < 10000 ∧ initialBreaker.status = .ACTIVE ∧
    ((checkDailyLoss initialBreaker (-600) 10000 0).2.status = .TRIPPED ↔
      ((-600 : ℚ) < 0 ∧ initialBreaker.max_daily_loss < -(-600) / 10000)) :=
  ⟨by norm_num, rfl,
   (claimC3.2.2 initialBreaker (-600) 10000 0 (by norm_num) rfl).1⟩

/-- The public operations of the `CircuitBreaker` class that can change its
state, as one step relation. `checkAll` bundles the account snapshot and
the current day/time; `dailyReset` is the calendar-day rollover
`_check_daily_reset`. -/
inductive CBOp
  | checkAll (account : Account) (today now : Nat)
  | recordTrade (pnl : ℚ) (now : Nat)
  | reset (manual : Bool)
  | dailyReset (today : Nat)
  | enableOverride
  | disableOverride
deriving DecidableEq, Repr

/-- Apply one operation to a breaker, keeping only the post-state. -/
def applyOp (cb : CircuitBreaker) : CBOp → CircuitBreaker
  | .checkAll account today now => (checkAllConditions cb account today now).2
  | .recordTrade pnl now => recordTradeResult cb pnl now
  | .reset manual => (resetBreaker cb manual).2
  | .dailyReset today => checkDailyReset cb today
  | .enableOverride => enableManualOverride cb
  | .disableOverride => disableManualOverride cb

/-- Operations not initiated as an operator's explicit manual action:
condition checks, trade-close bookkeeping, the automatic (`manual=False`)
reset call, and the calendar-day rollover. -/
def isAutomaticOp : CBOp → Bool
  | .checkAll _ _ _ => true
  | .recordTrade _ _ => true
  | .reset manual => !manual
  | .dailyReset _ => true
  | .enableOverride => false
  | .disableOverride => false

theorem checkConsecutiveLosses_status_tripped (cb : CircuitBreaker) (now : Nat)
    (h : cb.status = .TRIPPED) :
    (checkConsecutiveLosses cb now).2.status = .TRIPPED := by
  unfold checkConsecutiveLosses
  by_cases hc : cb.max_consecutive_losses ≤ cb.consecutive_losses
  · rw [if_pos hc]
    rfl
  · rw [if_neg hc]
    exact h

/-- C5: once TRIPPED, the only operation whose post-state is ACTIVE is the
explicit manual reset; every automatic operation (condition checks,
trade recording, non-manual reset, daily rollover) leaves the breaker
TRIPPED; and the calendar-day rollover resets the day's starting balance
and the consecutive-loss counter without clearing the TRIPPED status. -/
theorem claimC5 (cb : CircuitBreaker) (op : CBOp) (h : cb.status = .TRIPPED) :
    ((applyOp cb op).status = .ACTIVE → op = .reset true) ∧
    (isAutomaticOp op = true → (applyOp cb op).status = .TRIPPED) ∧
    (∀ today, (checkDailyReset cb today).status = .TRIPPED ∧
      (cb.last_reset_date ≠ some today →
        (checkDailyReset cb today).starting_balance_today = none ∧
        (checkDailyReset cb today).consecutive_losses = 0)) := by
  have hdaily : ∀ today, (checkDailyReset cb today).status = .TRIPPED ∧
      (cb.last_reset_date ≠ some today →
        (checkDailyReset cb today).starting_balance_today = none ∧
        (checkDailyReset cb today).consecutive_losses = 0) := by
    intro today
    unfold checkDailyReset
    by_cases hnew : cb.last_reset_date ≠ some today
    · rw [if_pos hnew]
      exact ⟨h, fun _ => ⟨rfl, rfl⟩⟩
    · rw [if_neg hnew]
      exact ⟨h, fun hx => absurd hx hnew⟩
  have hstay : (applyOp cb op).status = .TRIPPED ∨ op = .reset true ∨ op = .enableOverride := by
    cases op with
    | checkAll account today now =>
      left
      simp only [applyOp, checkAllConditions, if_pos h]
      exact h
    | recordTrade pnl now =>
      left
      simp only [applyOp, recordTradeResult]
      by_cases hp : pnl < 0
      · rw [if_pos hp]
        exact checkConsecutiveLosses_status_tripped _ now h
      · rw [if_neg hp]
        exact checkConsecutiveLosses_status_tripped _ now h
    | reset manual =>
      cases manual with
      | true => right; left; rfl
      | false =>
        left
        simp only [applyOp, resetBreaker, if_pos h]
        exact h
    | dailyReset today =>
      left
      exact (hdaily today).1
    | enableOverride => right; right; rfl
    | disableOverride =>
      left
      simp only [applyOp, disableManualOverride]
      rw [if_neg (by rw [h]; simp)]
      exact h
  refine ⟨?_, ?_, hdaily⟩
  · intro hact
    rcases hstay with hs | hs | hs
    · rw [hact] at hs
      exact absurd hs (by simp)
    · exact hs
    · subst hs
      simp only [applyOp, enableManualOverride] at hact
      exact absurd hact (by simp)
  · intro hauto
    rcases hstay with hs | hs | hs
    · exact hs
    · subst hs
      simp [isAutomaticOp] at hauto
    · subst hs
      simp [isAutomaticOp] at hauto

/-- A breaker in the TRIPPED state, for the C5 witness. -/
def trippedBreaker : CircuitBreaker :=
  { initialBreaker with status := .TRIPPED }

/-- C5 witness: a non-manual reset of a tripped breaker leaves it TRIPPED,
and a day rollover clears the counter but not the status. -/
theorem claimC5_witness :
    trippedBreaker.status = .TRIPPED ∧
    (applyOp trippedBreaker (.reset false)).status = .TRIPPED ∧
    (checkDailyReset trippedBreaker 1).status = .TRIPPED ∧
    (checkDailyReset trippedBreaker 1).consecutive_losses = 0 :=
  ⟨rfl,
   (claimC5 trippedBreaker (.reset false) rfl).2.1 rfl,
   ((claimC5 trippedBreaker (.reset false) rfl).2.2 1).1,
   (((claimC5 trippedBreaker (.reset false) rfl).2.2 1).2 (by decide)).2⟩

/-! ## Position sizing (`Risk_Management/position_sizing.py` and
`Risk_Management/risk_assessor.py`) -/

/-- Round half to even to an integer — the idealization over ℚ of Python's
built-in banker's rounding. -/
def roundHalfEven (q : ℚ) : ℤ :=
  let f := ⌊q⌋
  let r := q - f
  if r < 1/2 then f
  else if 1/2 < r then f + 1
  else if Even f then f else f + 1

/-- Python's `round(q, 4)`. -/
def round4 (q : ℚ) : ℚ := (roundHalfEven (q * 10000) : ℚ) / 10000

theorem roundHalfEven_le (q : ℚ) : (roundHalfEven q : ℚ) ≤ q + 1/2 := by
  have hfl : (⌊q⌋ : ℚ) ≤ q := Int.floor_le q
  unfold roundHalfEven
  simp only []
  split_ifs with h1 h2 h3
  · linarith
  · push_cast
    linarith
  · linarith
  · push_cast
    linarith

theorem round4_le (q : ℚ) : round4 q ≤ q + 1/20000 := by
  unfold round4
  rw [div_le_iff₀ (by norm_num : (0:ℚ) < 10000)]
  have := roundHalfEven_le (q * 10000)
  linarith

/-- `PositionSizer.calculate_position_size`: risk-based size
`balance · risk_per_trade · confidence / |entry − stop|`, capped at
`balance · max_position_size / entry`; returns `0.0` when the stop
distance is zero. -/
def positionSizerCalc (risk_per_trade max_position_size balance entry_price
    stop_loss_price confidence : ℚ) : ℚ :=
  let risk_per_unit := |entry_price - stop_loss_price|
  if risk_per_unit = 0 then 0
  else
    let dollar_risk := balance * risk_per_trade * confidence
    let position_size := dollar_risk / risk_per_unit
    let max_units := balance * max_position_size / entry_price
    min position_size max_units

/-- `RiskAssessor.calculate_position_size`: risk-based size capped at
`balance · max_position_size / entry` and rounded to 4 decimals — but a
zero stop distance short-circuits to the fixed minimum `0.01` before
the cap is ever applied. -/
def riskAssessorCalc (risk_per_trade max_position_size balance entry_price
    stop_loss : ℚ) : ℚ :=
  let risk_amount := balance * risk_per_trade
  let stop_distance := |entry_price - stop_loss|
  if stop_distance = 0 then 1/100
  else
    let position_size := risk_amount / stop_distance
    let max_size_by_account := balance * max_position_size / entry_price
    round4 (min position_size max_size_by_account)

/-- C4 counterexample: with the configured `risk_per_trade = 0.02` and
`max_position_size = 0.25`, a balance of 100 and `entry = stop_loss =
10000`, `RiskAssessor.calculate_position_size` returns the fixed fallback
0.01, which exceeds the cap `balance · max_position_size / entry =
0.0025` — the degenerate-case fallback does not respect the cap. -/
theorem claimC4_counterexample :
    riskAssessorCalc (2/100) (25/100) 100 10000 10000 = 1/100 ∧
    100 * (25/100) / 10000 < riskAssessorCalc (2/100) (25/100) 100 10000 10000 := by
  have h : riskAssessorCalc (2/100) (25/100) 100 10000 10000 = 1/100 := by
    unfold riskAssessorCalc
    norm_num
  exact ⟨h, by rw [h]; norm_num⟩

/-- C4 (amended): `PositionSizer.calculate_position_size` never exceeds
`balance · max_position_size / entry` (its zero-stop-distance fallback is
0.0, not a positive minimum); `RiskAssessor.calculate_position_size`
returns the fixed minimum 0.01 — not checked against the cap — when
`entry = stop_loss`, and otherwise respects the cap up to the 4-decimal
rounding slack of at most 0.00005. -/
theorem claimC4_amended :
    (∀ risk_per_trade max_position_size balance entry stop confidence : ℚ,
      0 ≤ balance → 0 < entry → 0 ≤ max_position_size →
      positionSizerCalc risk_per_trade max_position_size balance entry stop
          confidence ≤ balance * max_position_size / entry) ∧
    (∀ risk_per_trade max_position_size balance entry stop : ℚ,
      entry = stop →
      riskAssessorCalc risk_per_trade max_position_size balance entry stop
        = 1/100) ∧
    (∀ risk_per_trade max_position_size balance entry stop : ℚ,
      entry ≠ stop →
      riskAssessorCalc risk_per_trade max_position_size balance entry stop
        ≤ balance * max_position_size / entry + 1/20000) := by
  refine ⟨?_, ?_, ?_⟩
  · intro rpt mps balance entry stop confidence hb he hm
    unfold positionSizerCalc
    by_cases h0 : |entry - stop| = 0
    · rw [if_pos h0]
      exact div_nonneg (mul_nonneg hb hm) (le_of_lt he)
    · rw [if_neg h0]
      exact min_le_right _ _
  · intro rpt mps balance entry stop heq
    unfold riskAssessorCalc
    rw [if_pos (by rw [heq]; simp)]
  · intro rpt mps balance entry stop hne
    unfold riskAssessorCalc
    rw [if_neg (by simp [sub_eq_zero, hne])]
    have h1 := round4_le (min (balance * rpt / |entry - stop|)
      (balance * mps / entry))
    have h2 : min (balance * rpt / |entry - stop|)
        (balance * mps / entry) ≤ balance * mps / entry := min_le_right _ _
    linarith

/-- C4 witness: the amended bounds applied at concrete inputs — a normal
sizing call is below the cap, and a degenerate call returns 0.01. -/
theorem claimC4_witness :
    (0:ℚ) ≤ 10000 ∧ (0:ℚ) < 100 ∧ (0:ℚ) ≤ 25/100 ∧
    positionSizerCalc (2/100) (25/100) 10000 100 99 1 ≤ 10000 * (25/100) / 100 ∧
    riskAssessorCalc (2/100) (25/100) 10000 100 100 = 1/100 :=
  ⟨by norm_num, by norm_num, by norm_num,
   claimC4_amended.1 (2/100) (25/100) 10000 100 99 1 (by norm_num) (by norm_num)
     (by norm_num),
   claimC4_amended.2.1 (2/100) (25/100) 10000 100 100 rfl⟩

/-! ## Technical indicators (`Data_Engine/technical_analysis/indicators.py`)

Numpy array expressions become list combinators; `np.std` is the only
irrational operation and is the only place the reals enter. -/

/-- Python's slice `l[-n:]` (for `n = 0` the slice is the whole list). -/
def lastN (n : Nat) (l : List α) : List α :=
  if n = 0 then l else l.drop (l.length - n)

/-- `np.diff`: consecutive differences. -/
def npDiff (l : List ℚ) : List ℚ :=
  List.zipWith (fun a b => b - a) l l.tail

/-- `np.mean`. The empty-list case (a NaN warning in numpy) is unreachable
through the guarded callers and maps to 0 here. -/
def npMean (l : List ℚ) : ℚ := l.sum / l.length

/-- `np.max` over a nonempty list (callers guard emptiness). -/
def npMax (l : List ℚ) : ℚ :=
  match l with
  | [] => 0
  | x :: xs => xs.foldl max x

/-- `np.min` over a nonempty list (callers guard emptiness). -/
def npMin (l : List ℚ) : ℚ :=
  match l with
  | [] => 0
  | x :: xs => xs.foldl min x

/-- `l[-1]` for a guarded-nonempty list of rationals. -/
def lastD (l : List ℚ) : ℚ := l.getLast?.getD 0

/-- `TechnicalIndicators.sma`. -/
def sma (candles : List Candle) (period : Nat) : Option ℚ :=
  if candles.length < period then none
  else some (npMean ((lastN period candles).map (·.close)))

/-- The loop of `TechnicalIndicators._calculate_ema_array` after the seed. -/
def emaArrayAux (m : ℚ) (prev : ℚ) : List ℚ → List ℚ
  | [] => []
  | c :: cs =>
    let e := c * m + prev * (1 - m)
    e :: emaArrayAux m e cs

/-- `TechnicalIndicators._calculate_ema_array`: multiplier `2/(period+1)`,
seeded with the first value (empty input, an IndexError in the source,
maps to `[]`). -/
def emaArray (data : List ℚ) (period : Nat) : List ℚ :=
  match data with
  | [] => []
  | c :: cs => c :: emaArrayAux (2 / ((period : ℚ) + 1)) c cs

/-- `TechnicalIndicators.ema`: the last entry of the EMA array over all
closes, `None` below `period` candles. -/
def ema (candles : List Candle) (period : Nat) : Option ℚ :=
  if candles.length < period then none
  else some (lastD (emaArray (candles.map (·.close)) period))

/-- The `avg_gain` value inside `TechnicalIndicators.rsi`. -/
def rsiAvgGain (candles : List Candle) (period : Nat) : ℚ :=
  npMean (lastN period
    ((npDiff (candles.map (·.close))).map (fun d => if 0 < d then d else 0)))

/-- The `avg_loss` value inside `TechnicalIndicators.rsi`. -/
def rsiAvgLoss (candles : List Candle) (period : Nat) : ℚ :=
  npMean (lastN period
    ((npDiff (candles.map (·.close))).map (fun d => if d < 0 then -d else 0)))

/-- `TechnicalIndicators.rsi`: `None` below `period + 1` candles; 100 when
the average loss is zero; otherwise `100 − 100/(1 + avg_gain/avg_loss)`. -/
def rsi (candles : List Candle) (period : Nat) : Option ℚ :=
  if candles.length < period + 1 then none
  else if rsiAvgLoss candles period = 0 then some 100
  else some (100 - 100 / (1 + rsiAvgGain candles period / rsiAvgLoss candles period))

/-- `TechnicalIndicators.macd`. -/
def macd (candles : List Candle) (fast slow signal : Nat) : Option (ℚ × ℚ × ℚ) :=
  if candles.length < slow + signal then none
  else
    let closes := candles.map (·.close)
    let fast_ema := emaArray closes fast
    let slow_ema := emaArray closes slow
    let macd_line := List.zipWith (fun a b => a - b) fast_ema slow_ema
    let signal_line := emaArray macd_line signal
    let histogram := List.zipWith (fun a b => a - b) macd_line signal_line
    some (lastD macd_line, lastD signal_line, lastD histogram)

/-- `np.std`: population standard deviation. -/
noncomputable def npStd (l : List ℚ) : ℝ :=
  Real.sqrt ((npMean (l.map (fun x => (x - npMean l) ^ 2)) : ℚ))

/-- `TechnicalIndicators.bollinger_bands`:
`(middle + k·std, middle, middle − k·std)`. -/
noncomputable def bollingerBands (candles : List Candle) (period : Nat)
    (std_dev : ℚ) : Option (ℝ × ℝ × ℝ) :=
  if candles.length < period then none
  else
    let closes := (lastN period candles).map (·.close)
    let middle := ((npMean closes : ℚ) : ℝ)
    let std := npStd closes
    some (middle + std_dev * std, middle, middle - std_dev * std)

/-- The true-range series `np.maximum(tr1, np.maximum(tr2, tr3))` shared by
`atr` and `adx`. -/
def trueRanges (candles : List Candle) : List ℚ :=
  let highs := candles.map (·.high)
  let lows := candles.map (·.low)
  let closes := candles.map (·.close)
  let tr1 := List.zipWith (fun h l => h - l) highs.tail lows.tail
  let tr2 := List.zipWith (fun h c => |h - c|) highs.tail closes
  let tr3 := List.zipWith (fun l c => |l - c|) lows.tail closes
  List.zipWith max tr1 (List.zipWith max tr2 tr3)

/-- `TechnicalIndicators.atr`: mean of the last `period` true ranges. -/
def atr (candles : List Candle) (period : Nat) : Option ℚ :=
  if candles.length < period + 1 then none
  else some (npMean (lastN period (trueRanges candles)))

/-- `TechnicalIndicators.adx` (which, per the source, returns the DX value
built from `+DI`/`−DI` over period-means of `+DM`/`−DM` and TR). -/
def adx (candles : List Candle) (period : Nat) : Option ℚ :=
  if candles.length < period * 2 then none
  else
    let high_diff := npDiff (candles.map (·.high))
    let low_diff := (npDiff (candles.map (·.low))).map Neg.neg
    let plus_dm := List.zipWith
      (fun hd ld => if ld < hd ∧ 0 < hd then hd else 0) high_diff low_diff
    let minus_dm := List.zipWith
      (fun hd ld => if hd < ld ∧ 0 < ld then ld else 0) high_diff low_diff
    let atr_value := npMean (lastN period (trueRanges candles))
    let plus_di :=
      if 0 < atr_value then 100 * npMean (lastN period plus_dm) / atr_value else 0
    let minus_di :=
      if 0 < atr_value then 100 * npMean (lastN period minus_dm) / atr_value else 0
    let dx :=
      if 0 < plus_di + minus_di then 100 * |plus_di - minus_di| / (plus_di + minus_di)
      else 0
    some dx

/-- `TechnicalIndicators.stochastic`: %K is
`100·(close − lowest_low)/(highest_high − lowest_low)` over the last
`k_period` candles (50 on a zero range); the source then sets
`d_value = k_value` with the comment "simplified - should track multiple
%K values" (`d_period` is accepted but unused). -/
def stochastic (candles : List Candle) (k_period d_period : Nat) :
    Option (ℚ × ℚ) :=
  if candles.length < k_period then none
  else
    let recent := lastN k_period candles
    let highest_high := npMax (recent.map (·.high))
    let lowest_low := npMin (recent.map (·.low))
    let current_close := lastD (recent.map (·.close))
    let k_value : ℚ :=
      if highest_high = lowest_low then 50
      else 100 * (current_close - lowest_low) / (highest_high - lowest_low)
    let d_value := k_value
    some (k_value, d_value)

/-- Modelled from the spec: %D as a short moving average over the rolling
series of recent %K values — the %K of the window ending at the current
candle and at each of the `d_period − 1` preceding candles. Defined only
(`some`) when every one of those %K values is defined. -/
def stochasticDSpec (candles : List Candle) (k_period d_period : Nat) :
    Option ℚ :=
  let ks := (List.range d_period).filterMap fun j =>
    (stochastic (candles.take (candles.length - j)) k_period d_period).map (·.1)
  if ks.length = d_period then some (npMean ks) else none

/-- `TechnicalIndicators.cci` (`0.015 = 3/200`). -/
def cci (candles : List Candle) (period : Nat) : Option ℚ :=
  if candles.length < period then none
  else
    let tp := (lastN period candles).map (fun c => (c.high + c.low + c.close) / 3)
    let sma_tp := npMean tp
    let mean_deviation := npMean (tp.map (fun x => |x - sma_tp|))
    if mean_deviation = 0 then some 0
    else some ((lastD tp - sma_tp) / (3/200 * mean_deviation))

/-- `TechnicalIndicators.williams_r`. -/
def williamsR (candles : List Candle) (period : Nat) : Option ℚ :=
  if candles.length < period then none
  else
    let recent := lastN period candles
    let highest_high := npMax (recent.map (·.high))
    let lowest_low := npMin (recent.map (·.low))
    let close := lastD (recent.map (·.close))
    if highest_high = lowest_low then some (-50)
    else some (-100 * (highest_high - close) / (highest_high - lowest_low))

/-- Python's `x or default` on an optional float: `None` and the falsy
value `0.0` both yield the default. -/
def pyOr (x : Option ℚ) (d : ℚ) : ℚ :=
  match x with
  | none => d
  | some v => if v = 0 then d else v

/-- The dictionary built by `TechnicalIndicators.calculate_all`, one field
per key; the tuple-valued indicators (`stoch_k`/`stoch_d`,
`macd`/`macd_signal`/`macd_histogram`, `bb_upper`/`bb_middle`/`bb_lower`)
keep their option, since their keys are simply absent when undefined. -/
structure IndicatorSnapshot where
  sma_20 : ℚ
  sma_50 : ℚ
  sma_200 : ℚ
  ema_9 : ℚ
  ema_21 : ℚ
  ema_55 : ℚ
  rsi_14 : ℚ
  stoch : Option (ℚ × ℚ)
  cci_20 : ℚ
  williams_r : ℚ
  macd_result : Option (ℚ × ℚ × ℚ)
  adx_14 : ℚ
  bb : Option (ℝ × ℝ × ℝ)
  atr_14 : ℚ
  current_price : ℚ

/-- `TechnicalIndicators.calculate_all`: the empty dict (`none`) below 50
candles; otherwise every scalar indicator is entered through Python's
`or`-defaulting (`pyOr`). The `try/except` is dead for these total
computations and is not modelled. -/
noncomputable def calculateAll (candles : List Candle) :
    Option IndicatorSnapshot :=
  if candles.length < 50 then none
  else some
    { sma_20 := pyOr (sma candles 20) 0,
      sma_50 := pyOr (sma candles 50) 0,
      sma_200 := pyOr (sma candles 200) 0,
      ema_9 := pyOr (ema candles 9) 0,
      ema_21 := pyOr (ema candles 21) 0,
      ema_55 := pyOr (ema candles 55) 0,
      rsi_14 := pyOr (rsi candles 14) 50,
      stoch := stochastic candles 14 3,
      cci_20 := pyOr (cci candles 20) 0,
      williams_r := pyOr (williamsR candles 14) (-50),
      macd_result := macd candles 12 26 9,
      adx_14 := pyOr (adx candles 14) 0,
      bb := bollingerBands candles 20 2,
      atr_14 := pyOr (atr candles 14) 0,
      current_price := lastD (candles.map (·.close)) }

/-! ### RSI range (C8) -/

theorem npMean_nonneg (l : List ℚ) (h : ∀ x ∈ l, 0 ≤ x) : 0 ≤ npMean l :=
  div_nonneg (List.sum_nonneg h) (Nat.cast_nonneg _)

theorem lastN_subset (n : Nat) (l : List α) : ∀ x ∈ lastN n l, x ∈ l := by
  intro x hx
  unfold lastN at hx
  by_cases h0 : n = 0
  · rw [if_pos h0] at hx
    exact hx
  · rw [if_neg h0] at hx
    exact List.mem_of_mem_drop hx

theorem rsiAvgGain_nonneg (candles : List Candle) (period : Nat) :
    0 ≤ rsiAvgGain candles period := by
  apply npMean_nonneg
  intro x hx
  have hx2 := lastN_subset _ _ _ hx
  obtain ⟨d, _, rfl⟩ := List.mem_map.mp hx2
  split_ifs with h
  · exact le_of_lt h
  · exact le_refl 0

theorem rsiAvgLoss_nonneg (candles : List Candle) (period : Nat) :
    0 ≤ rsiAvgLoss candles period := by
  apply npMean_nonneg
  intro x hx
  have hx2 := lastN_subset _ _ _ hx
  obtain ⟨d, _, rfl⟩ := List.mem_map.mp hx2
  split_ifs with h
  · linarith
  · exact le_refl 0

/-- C8: for any candle window of at least `period + 1` candles (period ≥ 1),
the RSI is defined and lies in [0, 100]; it is exactly 100 when the average
loss over the window is 0, and `100 − 100/(1 + avg_gain/avg_loss)`
otherwise. -/
theorem claimC8 (candles : List Candle) (period : Nat) (_hp : 1 ≤ period)
    (hl : period + 1 ≤ candles.length) :
    ∃ r, rsi candles period = some r ∧ 0 ≤ r ∧ r ≤ 100 ∧
      (rsiAvgLoss candles period = 0 → r = 100) ∧
      (rsiAvgLoss candles period ≠ 0 →
        r = 100 - 100 / (1 + rsiAvgGain candles period / rsiAvgLoss candles period)) := by
  have hnl : ¬ candles.length < period + 1 := not_lt.mpr hl
  unfold rsi
  rw [if_neg hnl]
  by_cases h0 : rsiAvgLoss candles period = 0
  · rw [if_pos h0]
    exact ⟨100, rfl, by norm_num, by norm_num, fun _ => rfl,
           fun hc => absurd h0 hc⟩
  · rw [if_neg h0]
    have hg : 0 ≤ rsiAvgGain candles period := rsiAvgGain_nonneg candles period
    have hlo : 0 < rsiAvgLoss candles period :=
      lt_of_le_of_ne (rsiAvgLoss_nonneg candles period) (Ne.symm h0)
    have hx0 : 0 ≤ rsiAvgGain candles period / rsiAvgLoss candles period :=
      div_nonneg hg (le_of_lt hlo)
    have h1x : (1:ℚ) ≤ 1 + rsiAvgGain candles period / rsiAvgLoss candles period := by
      linarith
    have hfrac_le : 100 / (1 + rsiAvgGain candles period / rsiAvgLoss candles period)
        ≤ 100 := div_le_self (by norm_num) h1x
    have hfrac_nn : 0 ≤ 100 / (1 + rsiAvgGain candles period / rsiAvgLoss candles period) :=
      div_nonneg (by norm_num) (by linarith)
    exact ⟨_, rfl, by linarith, by linarith, fun hc => absurd hc h0, fun _ => rfl⟩

/-- A two-candle window with rising closes, for the C8 witness. -/
def rsiWitnessCandles : List Candle :=
  [⟨"EUR/USD", 0, "1h", 1, 1, 1, 1, 1⟩, ⟨"EUR/USD", 1, "1h", 1, 2, 1, 2, 1⟩]

/-- C8 witness: the RSI range theorem applied to a concrete 2-candle
window with period 1. -/
theorem claimC8_witness :
    ∃ r, rsi rsiWitnessCandles 1 = some r ∧ 0 ≤ r ∧ r ≤ 100 ∧
      (rsiAvgLoss rsiWitnessCandles 1 = 0 → r = 100) ∧
      (rsiAvgLoss rsiWitnessCandles 1 ≠ 0 →
        r = 100 - 100 / (1 + rsiAvgGain rsiWitnessCandles 1 / rsiAvgLoss rsiWitnessCandles 1)) :=
  claimC8 rsiWitnessCandles 1 (by norm_num) (by norm_num [rsiWitnessCandles])

/-! ### Stochastic %D (C6) -/

/-- First candle of the C6 window (close mid-range). -/
def stochA : Candle := ⟨"BTC/USD", 0, "1h", 1, 2, 0, 1, 1⟩

/-- Second candle of the C6 window (close at the window high: %K = 100). -/
def stochB : Candle := ⟨"BTC/USD", 1, "1h", 1, 2, 0, 2, 1⟩

/-- Third candle of the C6 window (close at the window low: %K = 0). -/
def stochC : Candle := ⟨"BTC/USD", 2, "1h", 1, 2, 0, 0, 1⟩

/-- A three-candle window whose %K values at the last two candles are 100
and 0: the %K formula and the divergence of the source's %D from the
rolling-average %D are both visible on it. -/
def stochWitnessCandles : List Candle := [stochA, stochB, stochC]

/-- C6: on `stochWitnessCandles` with `k_period = 2`, `d_period = 2`, the
source's stochastic returns %K = 0 (the correct %K for a close at the
window low) and %D = 0 — equal to the current %K — whereas %D computed as
the moving average of the rolling %K series `[100, 0]` is 50. The code
thus contradicts the claimed (and textbook) %D. -/
theorem claimC6 :
    stochastic stochWitnessCandles 2 2 = some (0, 0) ∧
    stochasticDSpec stochWitnessCandles 2 2 = some 50 ∧
    (stochastic stochWitnessCandles 2 2).map (fun p => p.2) ≠
      stochasticDSpec stochWitnessCandles 2 2 := by
  have h1 : stochastic stochWitnessCandles 2 2 = some (0, 0) := by
    norm_num [stochastic, stochWitnessCandles, stochA, stochB, stochC,
      lastN, npMax, npMin, lastD]
  have hK1 : stochastic [stochA, stochB] 2 2 = some (100, 100) := by
    norm_num [stochastic, stochA, stochB, lastN, npMax, npMin, lastD]
  have h2 : stochasticDSpec stochWitnessCandles 2 2 = some 50 := by
    unfold stochasticDSpec
    rw [show List.range 2 = [0, 1] from rfl, List.filterMap_cons,
        List.filterMap_cons, List.filterMap_nil]
    rw [show List.take (stochWitnessCandles.length - 0) stochWitnessCandles
          = stochWitnessCandles from rfl,
        show List.take (stochWitnessCandles.length - 1) stochWitnessCandles
          = [stochA, stochB] from rfl,
        h1, hK1]
    simp only [Option.map_some]
    norm_num [npMean]
  refine ⟨h1, h2, ?_⟩
  rw [h1, h2]
  intro h
  norm_num at h

/-! ## Performance analyzer (`Backtesting/performance_analyzer.py`) -/

/-- The tail of `np.maximum.accumulate` given the running maximum so far. -/
def cummaxAux (m : ℚ) : List ℚ → List ℚ
  | [] => []
  | y :: ys => max m y :: cummaxAux (max m y) ys

/-- `np.maximum.accumulate` (running maximum; first entry is the first
element). -/
def cummax : List ℚ → List ℚ
  | [] => []
  | x :: xs => x :: cummaxAux x xs

/-- `PerformanceAnalyzer._calculate_max_drawdown`:
`abs(np.min((equity − running_max)/running_max)) · 100`, and 0 for curves
shorter than 2 entries. -/
def maxDrawdownCalc (equity_curve : List ℚ) : ℚ :=
  if equity_curve.length < 2 then 0
  else
    let running_max := cummax equity_curve
    let drawdown := List.zipWith (fun e m => (e - m) / m) equity_curve running_max
    |npMin drawdown| * 100

theorem foldl_max_neg (xs : List ℚ) :
    ∀ a : ℚ, (xs.map (fun v => -v)).foldl max (-a) = -(xs.foldl min a) := by
  induction xs with
  | nil => intro a; simp
  | cons y ys ih =>
    intro a
    simp only [List.map_cons, List.foldl_cons]
    rw [max_neg_neg]
    exact ih (min a y)

theorem foldl_min_le (xs : List ℚ) : ∀ a : ℚ, xs.foldl min a ≤ a := by
  induction xs with
  | nil => intro a; simp
  | cons y ys ih =>
    intro a
    simp only [List.foldl_cons]
    exact le_trans (ih (min a y)) (min_le_left a y)

theorem zipWith_peak_neg (l1 l2 : List ℚ) :
    List.zipWith (fun e m => (m - e) / m) l1 l2 =
      (List.zipWith (fun e m => (e - m) / m) l1 l2).map (fun v => -v) := by
  induction l1 generalizing l2 with
  | nil => simp
  | cons x xs ih =>
    cases l2 with
    | nil => simp
    | cons y ys =>
      simp only [List.zipWith_cons_cons, List.map_cons]
      refine congrArg₂ _ ?_ (ih ys)
      rw [← neg_div, neg_sub]

/-- C9: the analyzer's maximum drawdown over any equity curve of at least
two entries equals 100 times the maximum over time of
`(running_peak − equity)/running_peak` (i.e. that maximum expressed as a
percentage), and in particular the curve `[10000, 11000, 9000, 12000]`
yields `(11000 − 9000)/11000` as a percentage, `200/11 ≈ 18.18`. -/
theorem claimC9 :
    maxDrawdownCalc [10000, 11000, 9000, 12000] = 200/11 ∧
    (∀ equity_curve : List ℚ, 2 ≤ equity_curve.length →
      maxDrawdownCalc equity_curve =
        100 * npMax (List.zipWith (fun e m => (m - e) / m)
          equity_curve (cummax equity_curve))) := by
  constructor
  · have hc : cummax [10000, 11000, 9000, 12000] = [10000, 11000, 11000, 12000] := by
      norm_num [cummax, cummaxAux, max_def]
    unfold maxDrawdownCalc
    rw [if_neg (by norm_num)]
    rw [hc]
    norm_num [npMin, min_def, abs_of_nonpos]
  · intro equity_curve hlen
    match equity_curve, hlen with
    | e0 :: e1 :: rest, _ =>
      unfold maxDrawdownCalc
      rw [if_neg (by simp)]
      simp only [cummax, List.zipWith_cons_cons]
      rw [zipWith_peak_neg]
      have hz : (e0 - e0) / e0 = 0 := by rw [sub_self, zero_div]
      rw [hz]
      set tl := List.zipWith (fun e m => (e - m) / m) (e1 :: rest)
        (cummaxAux e0 (e1 :: rest)) with htl
      have hmaxneg : npMax ((0:ℚ) :: tl.map (fun v => -v)) =
          -(npMin ((0:ℚ) :: tl)) := by
        simp only [npMax, npMin]
        have h := foldl_max_neg tl 0
        rw [neg_zero] at h
        exact h
      rw [hmaxneg]
      have hmin_le : npMin ((0:ℚ) :: tl) ≤ 0 := by
        simp only [npMin]
        exact foldl_min_le tl 0
      rw [abs_of_nonpos hmin_le]
      ring

/-- C9 witness: the general drawdown identity applied to the spec's
four-point equity curve. -/
theorem claimC9_witness :
    2 ≤ ([10000, 11000, 9000, 12000] : List ℚ).length ∧
    maxDrawdownCalc [10000, 11000, 9000, 12000] =
      100 * npMax (List.zipWith (fun e m => (m - e) / m)
        [10000, 11000, 9000, 12000] (cummax [10000, 11000, 9000, 12000])) :=
  ⟨by norm_num, claimC9.2 [10000, 11000, 9000, 12000] (by norm_num)⟩

/-! ## Backtest engine (`Backtesting/backtest_engine.py`) -/

/-- `MarketContext` dataclass from `trading_models.py` (`indicators` is a
string-keyed dict of floats). -/
structure MarketContext where
  pair : String
  current_price : ℚ
  indicators : List (String × ℚ)
  recent_candles : List Candle
  current_positions : List Position
  account_balance : ℚ
  market_regime : String
  timestamp : Nat

/-- `BacktestConfig` dataclass (its `strategy` member, a live object in the
source, is passed to `runBacktest` separately as a `StrategyImpl`). -/
structure BacktestConfig where
  pair : String
  start_date : Nat
  end_date : Nat
  initial_balance : ℚ
  slippage : ℚ
  commission : ℚ
  latency_ms : Nat

/-- `Trade` dataclass of the backtest engine. Its `Optional` exit fields
are always populated by `_close_position` — the only producer of trade
records in the engine — so they are plain values here. -/
structure Trade where
  entry_time : Nat
  exit_time : Nat
  pair : String
  direction : OrderDirection
  entry_price : ℚ
  exit_price : ℚ
  size : ℚ
  pnl : ℚ
  commission : ℚ
  slippage : ℚ
deriving DecidableEq, Repr

/-- `PerformanceMetrics` dataclass; `sharpe_ratio` is real-valued because
`np.std` takes a square root. -/
structure PerformanceMetrics where
  total_return : ℚ
  sharpe_ratio : ℝ
  max_drawdown : ℚ
  win_rate : ℚ
  profit_factor : ℚ
  avg_win : ℚ
  avg_loss : ℚ
  total_trades : Nat
  winning_trades : Nat
  losing_trades : Nat
  largest_win : ℚ
  largest_loss : ℚ
  avg_trade_duration : ℚ

/-- The all-zero metrics `calculate_metrics` returns for a trade-free run. -/
def emptyMetrics : PerformanceMetrics :=
  ⟨0, 0, 0, 0, 0, 0, 0, 0, 0, 0, 0, 0, 0⟩

/-- The population variance, i.e. `np.std(l)²`. The source guards the
Sharpe ratio with `np.std(returns) > 0`, which is equivalent to
`npVariance returns > 0` (a square root is positive iff its radicand is),
keeping the guard decidable. -/
def npVariance (l : List ℚ) : ℚ := npMean (l.map (fun x => (x - npMean l) ^ 2))

/-- `PerformanceAnalyzer.calculate_metrics`. The filter `if t.exit_time`
on trade durations keeps every trade, since exit times (datetimes in the
source) are always set by `_close_position`. -/
noncomputable def calculateMetrics (trades : List Trade)
    (equity_curve : List ℚ) (initial_balance : ℚ) : PerformanceMetrics :=
  if trades = [] then emptyMetrics
  else
    let returns := List.zipWith (fun prev next => (next - prev) / prev)
      equity_curve equity_curve.tail
    let winning_trades := trades.filter fun t => decide (0 < t.pnl)
    let losing_trades := trades.filter fun t => decide (t.pnl ≤ 0)
    let total_wins := (winning_trades.map (·.pnl)).sum
    let total_losses := |(losing_trades.map (·.pnl)).sum|
    let durations := trades.map fun t => ((t.exit_time : ℚ) - t.entry_time) / 3600
    { total_return := (lastD equity_curve - initial_balance) / initial_balance * 100,
      sharpe_ratio :=
        if 1 < returns.length ∧ 0 < npVariance returns then
          ((npMean returns : ℚ) : ℝ) / npStd returns * Real.sqrt 252
        else 0,
      max_drawdown := maxDrawdownCalc equity_curve,
      win_rate := (winning_trades.length : ℚ) / trades.length,
      profit_factor := if 0 < total_losses then total_wins / total_losses else 0,
      avg_win := if winning_trades ≠ [] then npMean (winning_trades.map (·.pnl)) else 0,
      avg_loss := if losing_trades ≠ [] then npMean (losing_trades.map (·.pnl)) else 0,
      total_trades := trades.length,
      winning_trades := winning_trades.length,
      losing_trades := losing_trades.length,
      largest_win := if winning_trades ≠ [] then npMax (winning_trades.map (·.pnl)) else 0,
      largest_loss := if losing_trades ≠ [] then npMin (losing_trades.map (·.pnl)) else 0,
      avg_trade_duration := if durations ≠ [] then npMean durations else 0 }

/-- The strategy interface the backtest engine consumes (`config.strategy`
in the source): `analyze` threads the strategy's per-instrument mutable
state of type `σ` explicitly. -/
structure StrategyImpl (σ : Type) where
  should_trade : String → Nat → Bool
  analyze : σ → MarketContext → StrategyResult × σ
  min_confidence_threshold : ℚ

/-- `BacktestResult` dataclass. -/
structure BacktestResult where
  config : BacktestConfig
  trades : List Trade
  equity_curve : List ℚ
  timestamps : List Nat
  performance : PerformanceMetrics
  final_balance : ℚ
  total_return : ℚ

/-- The "simple context" of `BacktestEngine.run` (lines 124-146):
hardcoded placeholder indicator values derived only from the candle close,
the trailing `historical_data[max(0, i-50):i+1]` window, no positions, and
the running balance. -/
def buildSimpleContext (pair : String) (candle : Candle)
    (recent : List Candle) (balance : ℚ) : MarketContext :=
  { pair := pair,
    current_price := candle.close,
    indicators := [
      ("rsi_14", 50),
      ("macd", 0),
      ("macd_signal", 0),
      ("macd_histogram", 0),
      ("bb_upper", candle.close * (102/100)),
      ("bb_middle", candle.close),
      ("bb_lower", candle.close * (98/100)),
      ("atr_14", candle.close * (1/100)),
      ("adx_14", 25),
      ("ema_9", candle.close),
      ("ema_21", candle.close),
      ("ema_55", candle.close)],
    recent_candles := recent,
    current_positions := [],
    account_balance := balance,
    market_regime := "ranging",
    timestamp := candle.timestamp }

/-- `BacktestEngine._open_position`: slippage against the trader on entry;
size is 2% risk over the stop distance with a 0.01 fallback. -/
def openPosition (signal : TradingSignal) (current_price : ℚ)
    (timestamp : Nat) (balance : ℚ) (cfg : BacktestConfig) : Position :=
  let entry_price :=
    if signal.direction = .BUY then current_price * (1 + cfg.slippage)
    else current_price * (1 - cfg.slippage)
  let risk_amount := balance * (2/100)
  let stop_distance := |entry_price - signal.stop_loss|
  let size := if 0 < stop_distance then risk_amount / stop_distance else 1/100
  { position_id := "backtest_" ++ toString timestamp,
    pair := signal.pair, direction := signal.direction, size := size,
    entry_price := entry_price, current_price := entry_price,
    stop_loss := signal.stop_loss, take_profit := signal.take_profit,
    unrealized_pnl := 0, opened_at := timestamp }

/-- `BacktestEngine._close_position`: slippage against the trader on exit,
commission on entry and exit notional. -/
def closePosition (position : Position) (exit_price : ℚ) (timestamp : Nat)
    (cfg : BacktestConfig) : Trade :=
  let actual_exit :=
    if position.direction = .BUY then exit_price * (1 - cfg.slippage)
    else exit_price * (1 + cfg.slippage)
  let pnl :=
    if position.direction = .BUY then
      (actual_exit - position.entry_price) * position.size
    else (position.entry_price - actual_exit) * position.size
  let commission := (position.entry_price + actual_exit) * position.size * cfg.commission
  { entry_time := position.opened_at, exit_time := timestamp,
    pair := position.pair, direction := position.direction,
    entry_price := position.entry_price, exit_price := actual_exit,
    size := position.size, pnl := pnl - commission,
    commission := commission, slippage := cfg.slippage }

/-- The mutable loop variables of `BacktestEngine.run`. -/
structure RunState (σ : Type) where
  balance : ℚ
  equity_curve : List ℚ
  timestamps : List Nat
  trades : List Trade
  current_position : Option Position
  strategy_state : σ

/-- Append a closed trade to the run state: record it, realize its P&L
into the balance, and clear the position. -/
def settleTrade {σ : Type} (st : RunState σ) (trade : Trade) : RunState σ :=
  { st with trades := st.trades ++ [trade],
            balance := st.balance + trade.pnl,
            current_position := none }

/-- One iteration of the candle loop of `BacktestEngine.run` for the
candle at index `i`: skip the 50-candle warm-up; build the simple context;
run the strategy and — above the confidence threshold — close an opposite
position and open a new one if flat; then check stop-loss before
take-profit on the candle's low/high; finally append realized balance
plus unrealized P&L to the equity curve. -/
def backtestStep {σ : Type} (strat : StrategyImpl σ) (cfg : BacktestConfig)
    (data : List Candle) (st : RunState σ) (ic : Nat × Candle) : RunState σ :=
  let i := ic.1
  let candle := ic.2
  if i < 50 then st
  else
    let recent := (data.take (i + 1)).drop (i - 50)
    let context := buildSimpleContext cfg.pair candle recent st.balance
    let st1 :=
      if strat.should_trade cfg.pair candle.timestamp then
        match strat.analyze st.strategy_state context with
        | (result, s2) =>
          let st0 := { st with strategy_state := s2 }
          match result.signal with
          | none => st0
          | some signal =>
            if strat.min_confidence_threshold ≤ result.confidence then
              let stc :=
                match st0.current_position with
                | some pos =>
                  if pos.direction ≠ signal.direction then
                    settleTrade st0 (closePosition pos candle.close candle.timestamp cfg)
                  else st0
                | none => st0
              match stc.current_position with
              | none =>
                let newpos := openPosition signal candle.close candle.timestamp
                  stc.balance cfg
                { stc with current_position := some newpos }
              | some _ => stc
            else st0
      else st
    let st2 :=
      match st1.current_position with
      | some pos =>
        if pos.direction = OrderDirection.BUY then
          if candle.low ≤ pos.stop_loss then
            settleTrade st1 (closePosition pos pos.stop_loss candle.timestamp cfg)
          else if pos.take_profit ≤ candle.high then
            settleTrade st1 (closePosition pos pos.take_profit candle.timestamp cfg)
          else st1
        else
          if pos.stop_loss ≤ candle.high then
            settleTrade st1 (closePosition pos pos.stop_loss candle.timestamp cfg)
          else if candle.low ≤ pos.take_profit then
            settleTrade st1 (closePosition pos pos.take_profit candle.timestamp cfg)
          else st1
      | none => st1
    let current_equity :=
      match st2.current_position with
      | some pos =>
        if pos.direction = OrderDirection.BUY then
          st2.balance + (candle.close - pos.entry_price) * pos.size
        else st2.balance + (pos.entry_price - candle.close) * pos.size
      | none => st2.balance
    { st2 with equity_curve := st2.equity_curve ++ [current_equity],
               timestamps := st2.timestamps ++ [candle.timestamp] }

/-- `BacktestEngine.run`: fold the candle loop over the enumerated data,
force-close any remaining position at the final close, and assemble the
result. The engine indexes `historical_data[0]` up front, so an empty
candle list (an IndexError in the source) yields `none`. The strategy's
final state is returned alongside to make the state threading explicit. -/
noncomputable def runBacktest {σ : Type} (strat : StrategyImpl σ)
    (cfg : BacktestConfig) (historical_data : List Candle) (s0 : σ) :
    Option (BacktestResult × σ) :=
  match historical_data with
  | [] => none
  | d0 :: rest =>
    let init : RunState σ :=
      { balance := cfg.initial_balance, equity_curve := [cfg.initial_balance],
        timestamps := [d0.timestamp], trades := [], current_position := none,
        strategy_state := s0 }
    let looped := (d0 :: rest).enum.foldl (backtestStep strat cfg (d0 :: rest)) init
    let last_candle := (d0 :: rest).getLast (List.cons_ne_nil d0 rest)
    let final :=
      match looped.current_position with
      | some pos =>
        settleTrade looped (closePosition pos last_candle.close last_candle.timestamp cfg)
      | none => looped
    some ({ config := cfg, trades := final.trades,
            equity_curve := final.equity_curve, timestamps := final.timestamps,
            performance := calculateMetrics final.trades final.equity_curve cfg.initial_balance,
            final_balance := final.balance,
            total_return := (final.balance - cfg.initial_balance) / cfg.initial_balance * 100 },
          final.strategy_state)

/-- C7: the backtest replay is a deterministic function of the
configuration, the candle sequence and the freshly-initialized strategy
state: two runs whose fresh states agree produce identical trade lists
and identical equity curves. (The loop reads nothing but its arguments —
the source's `run` consults no clock, randomness or ambient state — which
the state-passing embedding makes explicit; the circuit breaker does not
enter `run` at all.) -/
theorem claimC7 {σ : Type} (strat : StrategyImpl σ) (cfg : BacktestConfig)
    (data : List Candle) (s1 s2 : σ) (hfresh : s1 = s2) :
    (runBacktest strat cfg data s1).map (fun r => r.1.trades) =
      (runBacktest strat cfg data s2).map (fun r => r.1.trades) ∧
    (runBacktest strat cfg data s1).map (fun r => r.1.equity_curve) =
      (runBacktest strat cfg data s2).map (fun r => r.1.equity_curve) := by
  subst hfresh
  exact ⟨rfl, rfl⟩

/-- A strategy that never trades, over trivial state. -/
def holdStrategy : StrategyImpl Unit :=
  { should_trade := fun _ _ => false,
    analyze := fun s _ => (⟨none, 0, "no-op", 0⟩, s),
    min_confidence_threshold := 6/10 }

/-- A concrete backtest configuration with the documented defaults. -/
def witnessConfig : BacktestConfig :=
  { pair := "EUR/USD", start_date := 0, end_date := 1,
    initial_balance := 10000, slippage := 1/10000, commission := 2/10000,
    latency_ms := 100 }

/-- A flat candle for the C7 witness run. -/
def constC7Candle : Candle := ⟨"EUR/USD", 0, "1h", 1, 1, 1, 1, 1⟩

/-- C7 witness: determinism applied at a concrete strategy, config and
candle list with equal fresh states. -/
theorem claimC7_witness :
    (runBacktest holdStrategy witnessConfig [constC7Candle] ()).map (fun r => r.1.trades) =
      (runBacktest holdStrategy witnessConfig [constC7Candle] ()).map (fun r => r.1.trades) ∧
    (runBacktest holdStrategy witnessConfig [constC7Candle] ()).map (fun r => r.1.equity_curve) =
      (runBacktest holdStrategy witnessConfig [constC7Candle] ()).map (fun r => r.1.equity_curve) :=
  claimC7 holdStrategy witnessConfig [constC7Candle] () () rfl

/-! ## Silent-default substitution (C2) -/

/-- A flat candle; 50 copies of it form a window long enough for
`calculate_all` but too short for `sma_200`. -/
def constCandle : Candle := ⟨"EUR/USD", 0, "1h", 1, 1, 1, 1, 1⟩

/-- 50 identical candles. -/
def candles50 : List Candle := List.replicate 50 constCandle

theorem calculateAll_sma200 (candles : List Candle)
    (h50 : 50 ≤ candles.length) :
    ∃ snap, calculateAll candles = some snap ∧
      snap.sma_200 = pyOr (sma candles 200) 0 := by
  unfold calculateAll
  rw [if_neg (not_lt.mpr h50)]
  exact ⟨_, rfl, rfl⟩

/-- C2 counterexample: on a 50-candle window the 200-period SMA is
undefined (`None`), yet the snapshot produced by `calculate_all` contains
the entry `sma_200 = 0.0` — a silently substituted default standing in for
a missing financial quantity, contradicting the claim. -/
theorem claimC2_counterexample :
    sma candles50 200 = none ∧
    (calculateAll candles50).map (fun s => s.sma_200) = some 0 := by
  have hsma : sma candles50 200 = none := by
    unfold sma
    rw [if_pos (by norm_num [candles50])]
  obtain ⟨snap, hsnap, hfield⟩ :=
    calculateAll_sma200 candles50 (by norm_num [candles50])
  refine ⟨hsma, ?_⟩
  rw [hsnap]
  show some snap.sma_200 = some 0
  rw [hfield, hsma]
  rfl

/-- C2 (amended): each individual indicator function does return an
explicit `None` below its minimum window; but the bulk snapshot
`calculate_all` replaces an undefined (or zero-valued, via Python's `or`)
scalar indicator with a numeric default — e.g. `sma_200 = 0.0` on any
50–199-candle window — and the backtest engine's per-candle market
context carries hardcoded placeholder indicator values (e.g.
`rsi_14 = 50`, `adx_14 = 25`) regardless of the data. Only the
tuple-valued indicators propagate absence by key omission. -/
theorem claimC2_amended :
    (∀ (candles : List Candle) (period : Nat), candles.length < period →
      sma candles period = none ∧ ema candles period = none ∧
      cci candles period = none ∧ williamsR candles period = none ∧
      bollingerBands candles period 2 = none ∧
      stochastic candles period 3 = none) ∧
    (∀ (candles : List Candle) (period : Nat), candles.length < period + 1 →
      rsi candles period = none ∧ atr candles period = none) ∧
    (∀ (candles : List Candle) (period : Nat), candles.length < period * 2 →
      adx candles period = none) ∧
    (∀ (candles : List Candle) (fast slow signal : Nat),
      candles.length < slow + signal → macd candles fast slow signal = none) ∧
    (∀ candles : List Candle, 50 ≤ candles.length → candles.length < 200 →
      ∃ snap, calculateAll candles = some snap ∧
        sma candles 200 = none ∧ snap.sma_200 = 0) ∧
    (∀ (pair : String) (candle : Candle) (recent : List Candle) (balance : ℚ),
      (buildSimpleContext pair candle recent balance).indicators.lookup "rsi_14"
        = some 50 ∧
      (buildSimpleContext pair candle recent balance).indicators.lookup "adx_14"
        = some 25) := by
  refine ⟨?_, ?_, ?_, ?_, ?_, ?_⟩
  · intro candles period h
    refine ⟨?_, ?_, ?_, ?_, ?_, ?_⟩
    · unfold sma
      rw [if_pos h]
    · unfold ema
      rw [if_pos h]
    · unfold cci
      rw [if_pos h]
    · unfold williamsR
      rw [if_pos h]
    · unfold bollingerBands
      rw [if_pos h]
    · unfold stochastic
      rw [if_pos h]
  · intro candles period h
    constructor
    · unfold rsi
      rw [if_pos h]
    · unfold atr
      rw [if_pos h]
  · intro candles period h
    unfold adx
    rw [if_pos h]
  · intro candles fast slow signal h
    unfold macd
    rw [if_pos h]
  · intro candles h50 h200
    have hsma : sma candles 200 = none := by
      unfold sma
      rw [if_pos h200]
    obtain ⟨snap, hsnap, hfield⟩ := calculateAll_sma200 candles h50
    exact ⟨snap, hsnap, hsma, by rw [hfield, hsma]; rfl⟩
  · intro pair candle recent balance
    exact ⟨rfl, rfl⟩

/-- C2 witness: the amended statement applied at concrete inputs — the
single-candle window makes `sma` undefined, the 50-candle window gets the
defaulted `sma_200 = 0` entry, and a concrete backtest context carries
the hardcoded `rsi_14 = 50`. -/
theorem claimC2_witness :
    (sma [constCandle] 2 = none ∧ ema [constCandle] 2 = none ∧
      cci [constCandle] 2 = none ∧ williamsR [constCandle] 2 = none ∧
      bollingerBands [constCandle] 2 2 = none ∧
      stochastic [constCandle] 2 3 = none) ∧
    (∃ snap, calculateAll candles50 = some snap ∧
      sma candles50 200 = none ∧ snap.sma_200 = 0) ∧
    (buildSimpleContext "EUR/USD" constCandle [] 10000).indicators.lookup "rsi_14"
      = some 50 :=
  ⟨claimC2_amended.1 [constCandle] 2 (by norm_num),
   claimC2_amended.2.2.2.2.1 candles50 (by norm_num [candles50])
     (by norm_num [candles50]),
   (claimC2_amended.2.2.2.2.2 "EUR/USD" constCandle [] 10000).1⟩

end KeenAIQuant
